import Mathlib

/-!
Shallow embedding of the `bedrock` repository (a small HTTP façade over an
LLM inference backend) and proofs about its request/response behaviour.

Source files embedded:
  * `app/services/bedrock_service.py`  — `BedrockService.invoke_model`
  * `app/api/routes.py`                — Flask handlers (`/health`, `/model/invoke`)
  * `app/api/model_api.py`             — FastAPI handlers (`/health`, `/model/invoke`)
  * `app/client/model_client.py`       — `ModelClient` (outbound client, retry config)
  * `app/utils/aws_utils.py`           — `AWSUtils.setup_local_credentials`

The remote Bedrock backend and the HTTP transport are modelled as explicit
parameters (functions from the request the code builds to an outcome), so
that the code's own control flow is what the definitions capture.
-/

/-- JSON values, as produced by Python's `json` module / Flask / FastAPI.
Numbers are modelled as rationals (covers both Python ints and the float
literals appearing in the source). -/
inductive Json where
  | null : Json
  | bool : Bool → Json
  | num : ℚ → Json
  | str : String → Json
  | arr : List Json → Json
  | obj : List (String × Json) → Json

/-- Python `dict` key lookup on the field list of a JSON object
(first binding wins, as in a Python dict there is at most one). -/
def lookupField : List (String × Json) → String → Option Json
  | [], _ => none
  | (k, v) :: rest, key => if k = key then some v else lookupField rest key

/-- Python `dict.get(key, default)`. -/
def getDField (fields : List (String × Json)) (key : String) (d : Json) : Json :=
  match lookupField fields key with
  | some v => v
  | none => d

/-- Python truthiness (`bool(x)`) of a parsed JSON value:
`None`, `False`, `0`, `""`, `[]`, `{}` are falsy. -/
def pyTruthy : Json → Bool
  | .null => false
  | .bool b => b
  | .num q => q != 0
  | .str s => s ≠ ""
  | .arr xs => !xs.isEmpty
  | .obj fs => !fs.isEmpty

/-- Whether the first list occurs as a prefix of the second. -/
def charPrefix : List Char → List Char → Bool
  | [], _ => true
  | _ :: _, [] => false
  | a :: as, b :: bs => a = b && charPrefix as bs

/-- Whether the first list occurs as a contiguous run inside the second
(Python's substring membership `needle in haystack`). -/
def charInfix (needle : List Char) : List Char → Bool
  | [] => needle.isEmpty
  | c :: rest => charPrefix needle (c :: rest) || charInfix needle rest

/-- Python `key in data` for a string key against a parsed JSON value:
key membership for a dict, element equality for a list, substring test
for a string; a `TypeError` for non-container values. -/
def pyContains (data : Json) (key : String) : Except String Bool :=
  match data with
  | .obj fs => .ok (lookupField fs key).isSome
  | .arr xs => .ok (xs.any fun j => match j with | .str s => key = s | _ => false)
  | .str s => .ok (charInfix key.toList s.toList)
  | _ => .error "TypeError: argument is not iterable"

/-- Python `data[key]` for a string key: dict lookup; a `TypeError` when the
value is a list, string or scalar. -/
def pyGetItem (data : Json) (key : String) : Except String Json :=
  match data with
  | .obj fs =>
      match lookupField fs key with
      | some v => .ok v
      | none => .error ("KeyError: " ++ key)
  | .arr _ => .error "TypeError: list indices must be integers or slices, not str"
  | .str _ => .error "TypeError: string indices must be integers"
  | _ => .error "TypeError: object is not subscriptable"

/-- An HTTP response: status code and JSON body. -/
structure HttpResponse where
  status : Nat
  body : Json

/-- The observable behaviour of one request through a handler:
the HTTP response, the number of `logger.error` calls made while handling
it (across the handler and the service layer), and the list of prompts
passed to `BedrockService.invoke_model` (empty when the service was never
called). -/
structure HandlerTrace where
  resp : HttpResponse
  logs : Nat
  calls : List Json

namespace BedrockService

/-- `bedrock_service.py`, lines 25–31: the request body built for the
Claude model. The prompt is whatever value the caller passed (the Flask
route passes `data['prompt']` unvalidated, so it is any JSON value). -/
def buildRequestBody (prompt : Json) : Json :=
  .obj [("prompt", prompt),
        ("max_tokens_to_sample", .num 2048),
        ("temperature", .num (7/10)),
        ("top_p", .num 1),
        ("stop_sequences", .arr [.str "\n\nHuman:"])]

/-- `bedrock_service.py`, lines 40–47: parse/normalize the backend response
body. `response_body.get(...)` requires a dict; on any other JSON value the
Python code would raise (`AttributeError`), which the enclosing `try` turns
into the error case. -/
def normalizedBody (fs : List (String × Json)) : Json :=
  .obj [("generated_text", getDField fs "completion" (.str "")),
        ("model_id", .str "anthropic.claude-v2"),
        ("prompt_tokens", getDField fs "prompt_tokens" (.num 0)),
        ("completion_tokens", getDField fs "completion_tokens" (.num 0))]

/-- The dispatch on the parsed backend body: normalization succeeds only on
a JSON object. -/
def normalizeResponse : Json → Except String Json
  | .obj fs => .ok (normalizedBody fs)
  | _ => .error "AttributeError: object has no attribute get"

/-- `BedrockService.invoke_model(prompt)`. The backend
(`bedrock_runtime.invoke_model` composed with `json.loads` on its body) is
the parameter `bedrock`: it receives the request body the code builds and
yields either the parsed response body or an exception message. On any
exception the service logs once (`logger.error`) and re-raises. -/
def invoke_model (bedrock : Json → Except String Json) (prompt : Json) :
    Except String Json × Nat :=
  match bedrock (buildRequestBody prompt) with
  | .ok rb =>
      match normalizeResponse rb with
      | .ok r => (.ok r, 0)
      | .error e => (.error e, 1)
  | .error e => (.error e, 1)

end BedrockService

/-- Body of the Flask 400 response (`routes.py`, line 18). -/
def missingPromptBody : Json := .obj [("error", .str "Missing prompt in request")]

/-- Body of the Flask 500 response (`routes.py`, line 24). -/
def flaskErrorBody (e : String) : Json := .obj [("error", .str e)]

namespace routes

/-- `routes.py`, lines 9–11: `GET /health`. -/
def health_check : HttpResponse := ⟨200, .obj [("status", .str "healthy")]⟩

/-- `routes.py`, lines 13–24: the Flask `POST /model/invoke` handler.
`data` is the value returned by `request.get_json()` (a JSON body of `null`
parses to `Json.null`). The guard is `if not data or 'prompt' not in data`;
any exception in the `try` block is logged and becomes a 500 with the
exception text. -/
def invoke_model (bedrock : Json → Except String Json) (data : Json) : HandlerTrace :=
  if ¬ pyTruthy data then
    ⟨⟨400, missingPromptBody⟩, 0, []⟩
  else
    match pyContains data "prompt" with
    | .error e => ⟨⟨500, flaskErrorBody e⟩, 1, []⟩
    | .ok false => ⟨⟨400, missingPromptBody⟩, 0, []⟩
    | .ok true =>
        match pyGetItem data "prompt" with
        | .error e => ⟨⟨500, flaskErrorBody e⟩, 1, []⟩
        | .ok p =>
            match BedrockService.invoke_model bedrock p with
            | (.ok r, l) => ⟨⟨200, r⟩, l, [p]⟩
            | (.error e, l) => ⟨⟨500, flaskErrorBody e⟩, l + 1, [p]⟩

end routes

namespace model_api

/-- `model_api.py`, lines 33–35: `GET /health` (FastAPI, default status 200). -/
def health_check : HttpResponse := ⟨200, .obj [("status", .str "healthy")]⟩

/-- Pydantic validation of `ModelRequest` (`model_api.py`, lines 18–19):
the body must be a JSON object whose `prompt` field is a string; otherwise
FastAPI rejects the request before the handler runs. -/
def validateModelRequest : Json → Option String
  | .obj fs =>
      match lookupField fs "prompt" with
      | some (.str s) => some s
      | _ => none
  | _ => none

/-- The body FastAPI attaches to a 422 validation rejection (a
`{"detail": [...]}` structure produced by the framework, kept abstract
here since its exact contents come from FastAPI, not this repository). -/
def validationErrorBody : Json := .obj [("detail", .arr [])]

/-- `model_api.py`, lines 24–31: the FastAPI `POST /model/invoke` handler.
A body failing `ModelRequest` validation is rejected with 422 before the
handler runs; a service exception is logged and re-raised as
`HTTPException(500, detail=str(e))`; a success is wrapped in
`ModelResponse(response=...)`. -/
def invoke_model (bedrock : Json → Except String Json) (body : Json) : HandlerTrace :=
  match validateModelRequest body with
  | none => ⟨⟨422, validationErrorBody⟩, 0, []⟩
  | some p =>
      match BedrockService.invoke_model bedrock (.str p) with
      | (.ok r, l) => ⟨⟨200, .obj [("response", r)]⟩, l, [.str p]⟩
      | (.error e, l) => ⟨⟨500, .obj [("detail", .str e)]⟩, l + 1, [.str p]⟩

end model_api

namespace ModelClient

/-- Outcome of one HTTP request made by the outbound client's session:
a timeout, another transport failure, or a response with a status code and
JSON body. -/
inductive HttpOutcome where
  | timeout : HttpOutcome
  | reqError : String → HttpOutcome
  | success : Nat → Json → HttpOutcome

/-- Errors the outbound client can surface to its caller:
`model_client.py` raises the builtin `TimeoutError` on
`requests.exceptions.Timeout` and re-raises the generic
`requests.exceptions.RequestException` otherwise. -/
inductive ClientError where
  | timeoutError : String → ClientError
  | requestException : String → ClientError

/-- `model_client.py`, line 56: the JSON payload the client posts. -/
def requestData (prompt : String) : Json := .obj [("prompt", .str prompt)]

/-- The exception text of `response.raise_for_status()` for an HTTP error
status (a `requests.exceptions.HTTPError`, a subclass of
`RequestException`). -/
def httpErrorText (status : Nat) : String :=
  toString status ++ " Error for url /model/invoke"

/-- `ModelClient.invoke_model(prompt)` (`model_client.py`, lines 44–74).
The session's `post` is the parameter; the client builds the payload,
posts it, raises on error statuses, converts a timeout into a
`TimeoutError` with a fixed message, and logs & re-raises any other
request failure. Second component: number of `logger.error` calls. -/
def invoke_model (post : Json → HttpOutcome) (prompt : String) :
    Except ClientError Json × Nat :=
  match post (requestData prompt) with
  | .timeout => (.error (.timeoutError "Request to model API timed out"), 1)
  | .reqError e => (.error (.requestException e), 1)
  | .success st body =>
      if 400 ≤ st then (.error (.requestException (httpErrorText st)), 1)
      else (.ok body, 0)

/-- The retry policy handed to `urllib3.util.retry.Retry`
(`model_client.py`, lines 33–37). -/
structure RetryConfig where
  total : Nat
  backoff_factor : ℚ
  status_forcelist : List Nat

/-- `ModelClient._create_session(max_retries)` mounts adapters with exactly
this retry configuration (`model_client.py`, lines 29–42). -/
def sessionRetryConfig (max_retries : Nat) : RetryConfig :=
  ⟨max_retries, 1/2, [500, 502, 503, 504]⟩

/-- Modelled from the spec: the retry machinery itself lives in the
third-party `urllib3` library, which is not part of this repository; the
spec describes it as retrying on forcelisted statuses up to the configured
total, "applying exponential backoff between attempts" with the configured
backoff factor. Backoff slept before the k-th retry (k ≥ 1). -/
def backoffTime (backoff_factor : ℚ) (k : Nat) : ℚ :=
  backoff_factor * 2 ^ (k - 1)

/-- Modelled from the spec: execution of a request under the retry policy.
`server` gives the status answered to the n-th attempt (0-based);
`remaining` is the retry budget left. Returns the final outcome (the first
non-forcelisted status, or a failure when the budget is exhausted), the
number of attempts actually made, and the list of backoff delays applied
between attempts. -/
def retryExec (forcelist : List Nat) (backoff_factor : ℚ) (server : Nat → Nat) :
    Nat → Nat → Except String Nat × Nat × List ℚ
  | 0, attempt =>
      if server attempt ∈ forcelist then (.error "Max retries exceeded", 1, [])
      else (.ok (server attempt), 1, [])
  | r + 1, attempt =>
      if server attempt ∈ forcelist then
        let rest := retryExec forcelist backoff_factor server r (attempt + 1)
        (rest.1, rest.2.1 + 1, backoffTime backoff_factor (attempt + 1) :: rest.2.2)
      else (.ok (server attempt), 1, [])

/-- Running a session built by `_create_session(max_retries)` against a
given server: the retry loop under exactly the configuration the source
constructs. -/
def sessionExec (max_retries : Nat) (server : Nat → Nat) :
    Except String Nat × Nat × List ℚ :=
  let cfg := sessionRetryConfig max_retries
  retryExec cfg.status_forcelist cfg.backoff_factor server cfg.total 0

end ModelClient

namespace AWSUtils

/-- An INI file as manipulated by `configparser`: a list of sections, each
a list of key/value pairs. -/
structure IniFile where
  sections : List (String × List (String × String))

/-- `config.has_section(name)`. -/
def hasSection (ini : IniFile) (name : String) : Bool :=
  ini.sections.any fun s => s.1 = name

/-- Set `config[section][key] = value`, adding the section if absent
(the `add_section` / assignment sequence in the source). -/
def setSectionKey (ini : IniFile) (sec key val : String) : IniFile :=
  if hasSection ini sec then
    ⟨ini.sections.map fun s =>
      if s.1 = sec then (s.1, (s.2.filter fun kv => kv.1 ≠ key) ++ [(key, val)]) else s⟩
  else
    ⟨ini.sections ++ [(sec, [(key, val)])]⟩

/-- The `~/.aws` files touched by `setup_local_credentials`: `none` means
the file does not exist. -/
structure AwsFiles where
  credentials : Option IniFile
  config : Option IniFile

/-- The names bound at module level in `app/utils/aws_utils.py`: its import
statements bind exactly these (plus the module's own definitions). Neither
`Path` (from `pathlib`) nor `configparser` is ever imported. -/
def moduleImportedNames : List String :=
  ["boto3", "json", "ClientError", "Dict", "Any", "List", "Union", "Optional",
   "logging", "requests", "logger", "AWSUtils"]

/-- The body the `try` block of `setup_local_credentials` intends
(`aws_utils.py`, lines 84–134): update the profile section of the
credentials file with the two keys, update the region in the matching
section of the config file, write both, return `True`. -/
def setupBody (aws_access_key_id aws_secret_access_key region profile_name : String)
    (fs : AwsFiles) : Bool × AwsFiles :=
  let cred0 : IniFile := (fs.credentials).getD ⟨[]⟩
  let cred1 := setSectionKey cred0 profile_name "aws_access_key_id" aws_access_key_id
  let cred2 := setSectionKey cred1 profile_name "aws_secret_access_key" aws_secret_access_key
  let confSection := if profile_name = "default" then "default"
                     else "profile " ++ profile_name
  let conf0 : IniFile := (fs.config).getD ⟨[]⟩
  let conf1 := setSectionKey conf0 confSection "region" region
  (true, ⟨some cred2, some conf1⟩)

/-- `AWSUtils.setup_local_credentials` (`aws_utils.py`, lines 62–138).
On EC2 it warns and returns `False`. Otherwise the first statement of the
`try` block evaluates the name `Path`, which is unbound in the module
(never imported), so Python raises `NameError`; the blanket
`except Exception` logs it and returns `False` with no file written. The
intended body runs only in the (unreachable) case that `Path` were bound. -/
def setup_local_credentials (is_ec2 : Bool)
    (aws_access_key_id aws_secret_access_key region profile_name : String)
    (fs : AwsFiles) : Bool × AwsFiles :=
  if is_ec2 then (false, fs)
  else if moduleImportedNames.contains "Path"
          && moduleImportedNames.contains "configparser" then
    setupBody aws_access_key_id aws_secret_access_key region profile_name fs
  else
    (false, fs)

end AWSUtils

/-! ### Helper lemmas -/

theorem invoke_model_of_ok (b : Json → Except String Json) (p : Json)
    (rb : List (String × Json))
    (hb : b (BedrockService.buildRequestBody p) = Except.ok (Json.obj rb)) :
    BedrockService.invoke_model b p = (Except.ok (BedrockService.normalizedBody rb), 0) := by
  simp [BedrockService.invoke_model, hb, BedrockService.normalizeResponse]

theorem invoke_model_of_error (b : Json → Except String Json) (p : Json) (e : String)
    (hb : b (BedrockService.buildRequestBody p) = Except.error e) :
    BedrockService.invoke_model b p = (Except.error e, 1) := by
  simp [BedrockService.invoke_model, hb]

theorem flask_missing_400 (b : Json → Except String Json)
    (fs : List (String × Json)) (h : lookupField fs "prompt" = none) :
    routes.invoke_model b (Json.obj fs) = ⟨⟨400, missingPromptBody⟩, 0, []⟩ := by
  cases fs with
  | nil => simp [routes.invoke_model, pyTruthy]
  | cons hd tl => simp [routes.invoke_model, pyTruthy, pyContains, h]

theorem flask_dispatch_ok (b : Json → Except String Json)
    (fs : List (String × Json)) (p r : Json) (l : Nat)
    (hp : lookupField fs "prompt" = some p)
    (hs : BedrockService.invoke_model b p = (Except.ok r, l)) :
    routes.invoke_model b (Json.obj fs) = ⟨⟨200, r⟩, l, [p]⟩ := by
  cases fs with
  | nil => simp [lookupField] at hp
  | cons hd tl => simp [routes.invoke_model, pyTruthy, pyContains, pyGetItem, hp, hs]

theorem flask_dispatch_error (b : Json → Except String Json)
    (fs : List (String × Json)) (p : Json) (e : String) (l : Nat)
    (hp : lookupField fs "prompt" = some p)
    (hs : BedrockService.invoke_model b p = (Except.error e, l)) :
    routes.invoke_model b (Json.obj fs) = ⟨⟨500, flaskErrorBody e⟩, l + 1, [p]⟩ := by
  cases fs with
  | nil => simp [lookupField] at hp
  | cons hd tl => simp [routes.invoke_model, pyTruthy, pyContains, pyGetItem, hp, hs]

theorem fastapi_dispatch_ok (b : Json → Except String Json)
    (fs : List (String × Json)) (p : String) (r : Json) (l : Nat)
    (hp : lookupField fs "prompt" = some (Json.str p))
    (hs : BedrockService.invoke_model b (Json.str p) = (Except.ok r, l)) :
    model_api.invoke_model b (Json.obj fs) =
      ⟨⟨200, Json.obj [("response", r)]⟩, l, [Json.str p]⟩ := by
  simp [model_api.invoke_model, model_api.validateModelRequest, hp, hs]

theorem fastapi_dispatch_error (b : Json → Except String Json)
    (fs : List (String × Json)) (p : String) (e : String) (l : Nat)
    (hp : lookupField fs "prompt" = some (Json.str p))
    (hs : BedrockService.invoke_model b (Json.str p) = (Except.error e, l)) :
    model_api.invoke_model b (Json.obj fs) =
      ⟨⟨500, Json.obj [("detail", Json.str e)]⟩, l + 1, [Json.str p]⟩ := by
  simp [model_api.invoke_model, model_api.validateModelRequest, hp, hs]

theorem retryExec_const_forcelist (fl : List Nat) (bf : ℚ) (s : Nat) (hs : s ∈ fl) :
    ∀ (mr idx : Nat),
      ModelClient.retryExec fl bf (fun _ => s) mr idx =
        (Except.error "Max retries exceeded", mr + 1,
          (List.range mr).map fun k => ModelClient.backoffTime bf (idx + k + 1)) := by
  intro mr
  induction mr with
  | zero => intro idx; simp [ModelClient.retryExec, hs]
  | succ n ih =>
      intro idx
      simp only [ModelClient.retryExec, hs, if_pos, ih (idx + 1)]
      refine Prod.ext rfl (Prod.ext rfl ?_)
      rw [List.range_succ_eq_map, List.map_cons, List.map_map]
      refine congrArg₂ _ (by simp) ?_
      refine List.map_congr_left fun a _ => ?_
      simp [Function.comp]
      congr 1
      omega

/-! ### Claims -/

/-- C1: a POST /model/invoke request whose JSON object body lacks the
`prompt` field gets status 400 with body
`{"error": "Missing prompt in request"}` from the Flask entrypoint, logs
nothing, and `BedrockService.invoke_model` is never called. -/
theorem C1_missing_prompt_400_no_service_call (b : Json → Except String Json)
    (fs : List (String × Json)) (h : lookupField fs "prompt" = none) :
    routes.invoke_model b (Json.obj fs) = ⟨⟨400, missingPromptBody⟩, 0, []⟩ :=
  flask_missing_400 b fs h

/-- Instance of C1 at the concrete body `{"other": null}`. -/
theorem C1_missing_prompt_400_no_service_call_witness :
    routes.invoke_model (fun _ => Except.error "down")
      (Json.obj [("other", Json.null)]) = ⟨⟨400, missingPromptBody⟩, 0, []⟩ :=
  C1_missing_prompt_400_no_service_call _ _ rfl

/-- C2 fails: on the identical missing-prompt request `{}`, the Flask
entrypoint answers 400 while the FastAPI entrypoint answers 422, so the two
surfaces are not functionally identical. -/
theorem C2_counterexample :
    (routes.invoke_model (fun _ => Except.error "down") (Json.obj [])).resp.status = 400
    ∧ (model_api.invoke_model (fun _ => Except.error "down") (Json.obj [])).resp.status = 422
    ∧ (400 : Nat) ≠ 422 :=
  ⟨rfl, rfl, by decide⟩

/-- C2 (amended): the two surfaces agree on GET /health and on the status
codes of valid-prompt requests (200 on backend success, 500 on backend
failure, message included, two error logs), but they differ on
missing-prompt requests (Flask 400, FastAPI 422), the FastAPI surface
wraps the success body in a `response` field, and its failure body keys
the message by `detail` where Flask uses `error`. -/
theorem C2_surfaces_agree_only_partially :
    routes.health_check = model_api.health_check
    ∧ (∀ (b : Json → Except String Json) (fs rb : List (String × Json)) (p : String),
        lookupField fs "prompt" = some (Json.str p) →
        b (BedrockService.buildRequestBody (Json.str p)) = Except.ok (Json.obj rb) →
        (routes.invoke_model b (Json.obj fs)).resp.status = 200
        ∧ (model_api.invoke_model b (Json.obj fs)).resp.status = 200
        ∧ (model_api.invoke_model b (Json.obj fs)).resp.body =
            Json.obj [("response", (routes.invoke_model b (Json.obj fs)).resp.body)])
    ∧ (∀ (b : Json → Except String Json) (fs : List (String × Json)) (p e : String),
        lookupField fs "prompt" = some (Json.str p) →
        b (BedrockService.buildRequestBody (Json.str p)) = Except.error e →
        routes.invoke_model b (Json.obj fs) =
          ⟨⟨500, Json.obj [("error", Json.str e)]⟩, 2, [Json.str p]⟩
        ∧ model_api.invoke_model b (Json.obj fs) =
          ⟨⟨500, Json.obj [("detail", Json.str e)]⟩, 2, [Json.str p]⟩)
    ∧ (routes.invoke_model (fun _ => Except.error "x") (Json.obj [])).resp.status = 400
    ∧ (model_api.invoke_model (fun _ => Except.error "x") (Json.obj [])).resp.status = 422 := by
  refine ⟨rfl, ?_, ?_, rfl, rfl⟩
  · intro b fs rb p hp hb
    have hs := invoke_model_of_ok b (Json.str p) rb hb
    rw [flask_dispatch_ok b fs (Json.str p) _ 0 hp hs,
        fastapi_dispatch_ok b fs p _ 0 hp hs]
    exact ⟨rfl, rfl, rfl⟩
  · intro b fs p e hp hb
    have hs := invoke_model_of_error b (Json.str p) e hb
    exact ⟨flask_dispatch_error b fs (Json.str p) e 1 hp hs,
           fastapi_dispatch_error b fs p e 1 hp hs⟩

/-- Instance of the amended C2 at a concrete successful request. -/
theorem C2_surfaces_agree_only_partially_witness :
    (routes.invoke_model (fun _ => Except.ok (Json.obj []))
        (Json.obj [("prompt", Json.str "q")])).resp.status = 200
    ∧ (model_api.invoke_model (fun _ => Except.ok (Json.obj []))
        (Json.obj [("prompt", Json.str "q")])).resp.status = 200 :=
  ⟨(C2_surfaces_agree_only_partially.2.1 _ [("prompt", Json.str "q")] [] "q" rfl rfl).1,
   (C2_surfaces_agree_only_partially.2.1 _ [("prompt", Json.str "q")] [] "q" rfl rfl).2.1⟩

/-- C3: for a valid prompt on which the backend call succeeds, the Flask
POST /model/invoke returns 200 with the backend completion text verbatim as
`generated_text`, the model id string, and the two token counts. -/
theorem C3_success_verbatim_completion (b : Json → Except String Json)
    (fs rb : List (String × Json)) (p c : String) (pt ct : ℚ)
    (hp : lookupField fs "prompt" = some (Json.str p))
    (hb : b (BedrockService.buildRequestBody (Json.str p)) = Except.ok (Json.obj rb))
    (hc : lookupField rb "completion" = some (Json.str c))
    (hpt : lookupField rb "prompt_tokens" = some (Json.num pt))
    (hct : lookupField rb "completion_tokens" = some (Json.num ct)) :
    routes.invoke_model b (Json.obj fs) =
      ⟨⟨200, Json.obj [("generated_text", Json.str c),
                       ("model_id", Json.str "anthropic.claude-v2"),
                       ("prompt_tokens", Json.num pt),
                       ("completion_tokens", Json.num ct)]⟩, 0, [Json.str p]⟩ := by
  have hs := invoke_model_of_ok b (Json.str p) rb hb
  rw [flask_dispatch_ok b fs (Json.str p) _ 0 hp hs]
  simp [BedrockService.normalizedBody, getDField, hc, hpt, hct]

/-- Instance of C3 at a concrete request and backend response. -/
theorem C3_success_verbatim_completion_witness :
    routes.invoke_model
        (fun _ => Except.ok (Json.obj [("completion", Json.str "hello"),
                                       ("prompt_tokens", Json.num 3),
                                       ("completion_tokens", Json.num 5)]))
        (Json.obj [("prompt", Json.str "hi")]) =
      ⟨⟨200, Json.obj [("generated_text", Json.str "hello"),
                       ("model_id", Json.str "anthropic.claude-v2"),
                       ("prompt_tokens", Json.num 3),
                       ("completion_tokens", Json.num 5)]⟩, 0, [Json.str "hi"]⟩ :=
  C3_success_verbatim_completion _ _ _ "hi" "hello" 3 5 rfl rfl rfl rfl rfl

/-- C4 fails: on a concrete backend error the Flask entrypoint does return
500 with the message in the body, but the error is logged twice — once by
`BedrockService.invoke_model` and once by the route handler — not exactly
once. -/
theorem C4_counterexample :
    (routes.invoke_model (fun _ => Except.error "simulated backend failure")
        (Json.obj [("prompt", Json.str "hi")])) =
      ⟨⟨500, flaskErrorBody "simulated backend failure"⟩, 2, [Json.str "hi"]⟩
    ∧ (2 : Nat) ≠ 1 :=
  ⟨rfl, by decide⟩

/-- C4 (amended): when the backend call raises, POST /model/invoke returns
500 with the raised exception's message in the body, and the error is
logged exactly twice: once in the model-invocation service and once in the
HTTP handler. -/
theorem C4_backend_error_500_logged_twice (b : Json → Except String Json)
    (fs : List (String × Json)) (p : Json) (e : String)
    (hp : lookupField fs "prompt" = some p)
    (hb : b (BedrockService.buildRequestBody p) = Except.error e) :
    routes.invoke_model b (Json.obj fs) = ⟨⟨500, flaskErrorBody e⟩, 2, [p]⟩ :=
  flask_dispatch_error b fs p e 1 hp (invoke_model_of_error b p e hb)

/-- Instance of the amended C4 at a concrete failing backend. -/
theorem C4_backend_error_500_logged_twice_witness :
    routes.invoke_model (fun _ => Except.error "boom")
        (Json.obj [("prompt", Json.str "p")]) =
      ⟨⟨500, flaskErrorBody "boom"⟩, 2, [Json.str "p"]⟩ :=
  C4_backend_error_500_logged_twice _ _ (Json.str "p") "boom" rfl rfl

/-- C5 fails: the request `{"prompt": ""}` is not rejected with 400 — it is
answered 200 and the empty prompt reaches `BedrockService.invoke_model` —
so the invariant "prompt non-empty" does not hold for every request that
reaches the service. -/
theorem C5_counterexample :
    (routes.invoke_model (fun _ => Except.ok (Json.obj []))
        (Json.obj [("prompt", Json.str "")])).resp.status = 200
    ∧ (routes.invoke_model (fun _ => Except.ok (Json.obj []))
        (Json.obj [("prompt", Json.str "")])).calls = [Json.str ""] :=
  ⟨rfl, rfl⟩

/-- C5 (amended): the Flask entrypoint checks only the presence of the
`prompt` field: absence is signalled as a 400 client error and the service
is never called, while any present value — including the empty string —
is forwarded unchanged to the model-invocation service. -/
theorem C5_presence_checked_not_nonemptiness (b : Json → Except String Json)
    (fs : List (String × Json)) :
    (lookupField fs "prompt" = none →
       routes.invoke_model b (Json.obj fs) = ⟨⟨400, missingPromptBody⟩, 0, []⟩)
    ∧ ∀ p, lookupField fs "prompt" = some p →
        (routes.invoke_model b (Json.obj fs)).calls = [p] := by
  refine ⟨flask_missing_400 b fs, fun p hp => ?_⟩
  rcases hs : BedrockService.invoke_model b p with ⟨res, l⟩
  cases res with
  | ok r => rw [flask_dispatch_ok b fs p r l hp hs]
  | error e => rw [flask_dispatch_error b fs p e l hp hs]

/-- Instance of the amended C5: an empty present prompt is forwarded. -/
theorem C5_presence_checked_not_nonemptiness_witness :
    (routes.invoke_model (fun _ => Except.error "e")
        (Json.obj [("prompt", Json.str "")])).calls = [Json.str ""] :=
  (C5_presence_checked_not_nonemptiness _ _).2 (Json.str "") rfl

/-- C6: for every prompt the service builds exactly the request body
`{"prompt": <prompt>, "max_tokens_to_sample": 2048, "temperature": 0.7,
"top_p": 1, "stop_sequences": ["\n\nHuman:"]}`, and the service's whole
behaviour depends on the backend only through that body, so the generation
parameters are fixed constants independent of any caller input other than
the prompt. -/
theorem C6_fixed_generation_parameters (p : Json) :
    BedrockService.buildRequestBody p =
      Json.obj [("prompt", p),
                ("max_tokens_to_sample", Json.num 2048),
                ("temperature", Json.num (7/10)),
                ("top_p", Json.num 1),
                ("stop_sequences", Json.arr [Json.str "\n\nHuman:"])]
    ∧ ∀ b₁ b₂ : Json → Except String Json,
        b₁ (BedrockService.buildRequestBody p) = b₂ (BedrockService.buildRequestBody p) →
        BedrockService.invoke_model b₁ p = BedrockService.invoke_model b₂ p := by
  refine ⟨rfl, fun b₁ b₂ h => ?_⟩
  unfold BedrockService.invoke_model
  rw [h]

/-- Instance of C6 at a concrete prompt and backend pair. -/
theorem C6_fixed_generation_parameters_witness :
    BedrockService.invoke_model (fun j => Except.ok j) (Json.str "hi") =
      BedrockService.invoke_model (fun j => Except.ok j) (Json.str "hi") :=
  (C6_fixed_generation_parameters (Json.str "hi")).2 _ _ rfl

/-- C7 is contradicted by the code: `setup_local_credentials` returns
`False` and writes nothing for every input, on and off EC2 alike, because
the first statement of its `try` block uses the name `Path` (and later
`configparser`), neither of which is imported in `aws_utils.py`; the
resulting `NameError` is swallowed by the blanket `except`, which logs and
returns `False`. The success path promised by the claim (and by the
function's own docstring) is unreachable. -/
theorem C7_setup_local_credentials_always_false (is_ec2 : Bool)
    (akid secret region profile : String) (fs : AWSUtils.AwsFiles) :
    AWSUtils.setup_local_credentials is_ec2 akid secret region profile fs = (false, fs) := by
  cases is_ec2 <;> rfl

/-- C8: on a timeout of the outbound call, `ModelClient.invoke_model`
raises `TimeoutError` with a fixed message (logging once); on any other
request failure it re-raises the generic `RequestException`; and the two
error kinds are distinct. -/
theorem C8_timeout_error_distinct :
    (∀ (post : Json → ModelClient.HttpOutcome) (prompt : String),
        post (ModelClient.requestData prompt) = ModelClient.HttpOutcome.timeout →
        ModelClient.invoke_model post prompt =
          (Except.error (ModelClient.ClientError.timeoutError
              "Request to model API timed out"), 1))
    ∧ (∀ (post : Json → ModelClient.HttpOutcome) (prompt e : String),
        post (ModelClient.requestData prompt) = ModelClient.HttpOutcome.reqError e →
        ModelClient.invoke_model post prompt =
          (Except.error (ModelClient.ClientError.requestException e), 1))
    ∧ ∀ s m, ModelClient.ClientError.timeoutError s ≠
        ModelClient.ClientError.requestException m := by
  refine ⟨?_, ?_, fun s m h => ModelClient.ClientError.noConfusion h⟩
  · intro post prompt h
    simp [ModelClient.invoke_model, h]
  · intro post prompt e h
    simp [ModelClient.invoke_model, h]

/-- Instance of C8 at a transport that times out. -/
theorem C8_timeout_error_distinct_witness :
    ModelClient.invoke_model (fun _ => ModelClient.HttpOutcome.timeout) "p" =
      (Except.error (ModelClient.ClientError.timeoutError
          "Request to model API timed out"), 1) :=
  C8_timeout_error_distinct.1 _ "p" rfl

/-- C9: against a server that always answers one of the forcelisted
statuses 500/502/503/504, a session built by
`_create_session(max_retries)` makes the initial attempt plus exactly
`max_retries` retries (`max_retries + 1` attempts) before surfacing the
failure, sleeping `0.5 * 2 ^ k` before the (k+1)-th retry (backoff factor
0.5). -/
theorem C9_retries_exactly_max_retries (max_retries s : Nat)
    (hs : s ∈ [500, 502, 503, 504]) :
    ModelClient.sessionExec max_retries (fun _ => s) =
      (Except.error "Max retries exceeded", max_retries + 1,
        (List.range max_retries).map fun k => (1/2 : ℚ) * 2 ^ k) := by
  unfold ModelClient.sessionExec ModelClient.sessionRetryConfig
  rw [retryExec_const_forcelist _ _ s hs max_retries 0]
  refine Prod.ext rfl (Prod.ext rfl (List.map_congr_left fun a _ => ?_))
  simp [ModelClient.backoffTime]

/-- Instance of C9: three retries on a server answering 503 forever. -/
theorem C9_retries_exactly_max_retries_witness :
    ModelClient.sessionExec 3 (fun _ => 503) =
      (Except.error "Max retries exceeded", 4,
        [(1/2 : ℚ), 1, 2]) := by
  rw [C9_retries_exactly_max_retries 3 503 (by decide)]
  norm_num [List.range_succ]

/-- C10: every successful invocation is normalized with the constant
model id `anthropic.claude-v2`, and missing `completion`,
`prompt_tokens` or `completion_tokens` keys in the backend body fall back
to `""` and `0` respectively instead of raising. -/
theorem C10_constant_model_id_and_defaults (b : Json → Except String Json)
    (p : Json) (rb : List (String × Json))
    (hb : b (BedrockService.buildRequestBody p) = Except.ok (Json.obj rb)) :
    (BedrockService.invoke_model b p).1 =
      Except.ok (Json.obj
        [("generated_text", getDField rb "completion" (Json.str "")),
         ("model_id", Json.str "anthropic.claude-v2"),
         ("prompt_tokens", getDField rb "prompt_tokens" (Json.num 0)),
         ("completion_tokens", getDField rb "completion_tokens" (Json.num 0))])
    ∧ (lookupField rb "completion" = none →
        getDField rb "completion" (Json.str "") = Json.str "")
    ∧ (lookupField rb "prompt_tokens" = none →
        getDField rb "prompt_tokens" (Json.num 0) = Json.num 0)
    ∧ (lookupField rb "completion_tokens" = none →
        getDField rb "completion_tokens" (Json.num 0) = Json.num 0) := by
  refine ⟨?_, fun h => by simp [getDField, h], fun h => by simp [getDField, h],
          fun h => by simp [getDField, h]⟩
  rw [invoke_model_of_ok b p rb hb]
  rfl

/-- Instance of C10 at a backend body with all three keys absent. -/
theorem C10_constant_model_id_and_defaults_witness :
    (BedrockService.invoke_model (fun _ => Except.ok (Json.obj [])) Json.null).1 =
      Except.ok (Json.obj
        [("generated_text", Json.str ""),
         ("model_id", Json.str "anthropic.claude-v2"),
         ("prompt_tokens", Json.num 0),
         ("completion_tokens", Json.num 0)]) :=
  (C10_constant_model_id_and_defaults (fun _ => Except.ok (Json.obj []))
    Json.null [] rfl).1
